import Mathlib

/-!
Verification of the MeVerse persistence layer.

This file embeds, in Lean 4, the parts of the repository that the
specification's claims are about:

* `app/utils/database.py` — `FileBasedCollection` with its
  `find` / `find_one` / `insert_one` / `update_one` / `delete_one`
  operations over JSON documents;
* `app/models/users/user_db.py` — `UserDBService` with its in-memory
  primary map and the two lower-cased secondary indices, plus
  `create_user` / `update_user` / `delete_user` / `update_last_login`
  and the snapshot persistence step `_save_users`;
* `app/models/users/data_connections.py` — `DataConnection` and
  `DataConnectionService` (`add_connection`, `update_connection`,
  `set_connection_status`, `delete_connection`).

Python dictionaries are embedded as insertion-ordered association lists
(`Doc`), matching CPython's ordered-dict semantics; `datetime.utcnow()`
and `uuid.uuid4()` are external sources of nondeterminism and appear as
explicit parameters; a possible failure of the durable write in
`_save_users` is an explicit boolean parameter.  Raising an exception
from code that has already mutated the singleton's in-memory state is
embedded as returning both the (partially mutated) state and an error
result.
-/

/-- A JSON value, the universal shape of everything the file-based
store persists (`json.load` / `json.dump` in `database.py`). -/
inductive Value where
  | null
  | bool (b : Bool)
  | int (n : Int)
  | str (s : String)
  | arr (xs : List Value)
  | obj (fields : List (String × Value))
  deriving Repr

mutual

/-- Decidable equality on `Value`, written by hand because the deriving
handler does not support nested inductives. -/
def decEqValue : (a b : Value) → Decidable (a = b)
  | .null, .null => isTrue rfl
  | .null, .bool _ => isFalse (fun h => Value.noConfusion h)
  | .null, .int _ => isFalse (fun h => Value.noConfusion h)
  | .null, .str _ => isFalse (fun h => Value.noConfusion h)
  | .null, .arr _ => isFalse (fun h => Value.noConfusion h)
  | .null, .obj _ => isFalse (fun h => Value.noConfusion h)
  | .bool _, .null => isFalse (fun h => Value.noConfusion h)
  | .bool a, .bool b =>
    match decEq a b with
    | isTrue h => isTrue (by rw [h])
    | isFalse h => isFalse (fun hh => h (by cases hh; rfl))
  | .bool _, .int _ => isFalse (fun h => Value.noConfusion h)
  | .bool _, .str _ => isFalse (fun h => Value.noConfusion h)
  | .bool _, .arr _ => isFalse (fun h => Value.noConfusion h)
  | .bool _, .obj _ => isFalse (fun h => Value.noConfusion h)
  | .int _, .null => isFalse (fun h => Value.noConfusion h)
  | .int _, .bool _ => isFalse (fun h => Value.noConfusion h)
  | .int a, .int b =>
    match decEq a b with
    | isTrue h => isTrue (by rw [h])
    | isFalse h => isFalse (fun hh => h (by cases hh; rfl))
  | .int _, .str _ => isFalse (fun h => Value.noConfusion h)
  | .int _, .arr _ => isFalse (fun h => Value.noConfusion h)
  | .int _, .obj _ => isFalse (fun h => Value.noConfusion h)
  | .str _, .null => isFalse (fun h => Value.noConfusion h)
  | .str _, .bool _ => isFalse (fun h => Value.noConfusion h)
  | .str _, .int _ => isFalse (fun h => Value.noConfusion h)
  | .str a, .str b =>
    match decEq a b with
    | isTrue h => isTrue (by rw [h])
    | isFalse h => isFalse (fun hh => h (by cases hh; rfl))
  | .str _, .arr _ => isFalse (fun h => Value.noConfusion h)
  | .str _, .obj _ => isFalse (fun h => Value.noConfusion h)
  | .arr _, .null => isFalse (fun h => Value.noConfusion h)
  | .arr _, .bool _ => isFalse (fun h => Value.noConfusion h)
  | .arr _, .int _ => isFalse (fun h => Value.noConfusion h)
  | .arr _, .str _ => isFalse (fun h => Value.noConfusion h)
  | .arr a, .arr b =>
    match decEqValueList a b with
    | isTrue h => isTrue (by rw [h])
    | isFalse h => isFalse (fun hh => h (by cases hh; rfl))
  | .arr _, .obj _ => isFalse (fun h => Value.noConfusion h)
  | .obj _, .null => isFalse (fun h => Value.noConfusion h)
  | .obj _, .bool _ => isFalse (fun h => Value.noConfusion h)
  | .obj _, .int _ => isFalse (fun h => Value.noConfusion h)
  | .obj _, .str _ => isFalse (fun h => Value.noConfusion h)
  | .obj _, .arr _ => isFalse (fun h => Value.noConfusion h)
  | .obj a, .obj b =>
    match decEqFieldList a b with
    | isTrue h => isTrue (by rw [h])
    | isFalse h => isFalse (fun hh => h (by cases hh; rfl))

/-- Decidable equality on lists of `Value`s. -/
def decEqValueList : (xs ys : List Value) → Decidable (xs = ys)
  | [], [] => isTrue rfl
  | [], _ :: _ => isFalse (fun h => List.noConfusion h)
  | _ :: _, [] => isFalse (fun h => List.noConfusion h)
  | x :: xs, y :: ys =>
    match decEqValue x y, decEqValueList xs ys with
    | isTrue h1, isTrue h2 => isTrue (by rw [h1, h2])
    | isFalse h1, _ => isFalse (fun hh => h1 (by cases hh; rfl))
    | _, isFalse h2 => isFalse (fun hh => h2 (by cases hh; rfl))

/-- Decidable equality on field lists of JSON objects. -/
def decEqFieldList : (xs ys : List (String × Value)) → Decidable (xs = ys)
  | [], [] => isTrue rfl
  | [], _ :: _ => isFalse (fun h => List.noConfusion h)
  | _ :: _, [] => isFalse (fun h => List.noConfusion h)
  | (k1, v1) :: xs, (k2, v2) :: ys =>
    match decEq k1 k2, decEqValue v1 v2, decEqFieldList xs ys with
    | isTrue h1, isTrue h2, isTrue h3 => isTrue (by rw [h1, h2, h3])
    | isFalse h1, _, _ => isFalse (fun hh => h1 (by cases hh; rfl))
    | _, isFalse h2, _ => isFalse (fun hh => h2 (by cases hh; rfl))
    | _, _, isFalse h3 => isFalse (fun hh => h3 (by cases hh; rfl))

end

instance : DecidableEq Value := decEqValue

/-- A Python `dict` as stored in a collection file: an insertion-ordered
association list from string keys to JSON values (CPython dicts preserve
insertion order; a key occurs at most once in well-formed states). -/
abbrev Doc := List (String × Value)

/-- `doc[k]` / `doc.get(k)`: the value of the first occurrence of key
`k`, if any. -/
def getVal (d : Doc) (k : String) : Option Value :=
  match d with
  | [] => none
  | (k0, v) :: rest => if k0 = k then some v else getVal rest k

/-- `doc[k] = v`: replace the value at key `k` in place if the key is
present, otherwise append the binding (CPython dict assignment). -/
def setKey (d : Doc) (k : String) (v : Value) : Doc :=
  match d with
  | [] => [(k, v)]
  | (k0, v0) :: rest => if k0 = k then (k0, v) :: rest else (k0, v0) :: setKey rest k v

/-- `doc.update(kvs)`: assign each binding of `kvs` in order. -/
def dictUpdate (d : Doc) (kvs : Doc) : Doc :=
  kvs.foldl (fun acc kv => setKey acc kv.1 kv.2) d


/-- Python's `str.lower()` on the ASCII range (the normalization applied
to emails and usernames before indexing), written with a structural
`List.map` so that it evaluates by kernel reduction. -/
def strLower (s : String) : String := String.mk (s.data.map Char.toLower)

namespace FileBasedCollection

/-- The match test `all(k in doc and doc[k] == v for k, v in query.items())`
used uniformly by `find_one`, `find`, `update_one` and `delete_one` in
`FileBasedCollection`: every query key must be present in the document
with a structurally equal value.  There is no operator handling here:
an operator mapping such as `{"$gte": ...}` is compared for literal
equality like any other value. -/
def matchesDoc (d : Doc) (query : Doc) : Bool :=
  query.all (fun kv =>
    match getVal d kv.1 with
    | some w => decide (w = kv.2)
    | none => false)

/-- `FileBasedCollection.find`: with a falsy (empty) query all documents
are returned; otherwise the documents matching the query, in collection
order. -/
def find (docs : List Doc) (query : Doc) : List Doc :=
  if query.isEmpty then docs else docs.filter (fun d => matchesDoc d query)

/-- `FileBasedCollection.find_one`: the first matching document. -/
def find_one (docs : List Doc) (query : Doc) : Option Doc :=
  docs.find? (fun d => matchesDoc d query)

/-- Result dictionary of `insert_one`. -/
structure InsertOneResult where
  inserted_id : Option Value
  deriving Repr, DecidableEq

/-- `FileBasedCollection.insert_one`: appends the document as given and
reports `document.get("_id")`. -/
def insert_one (docs : List Doc) (document : Doc) : List Doc × InsertOneResult :=
  (docs ++ [document], ⟨getVal document "_id"⟩)

/-- Result dictionary of `update_one`. -/
structure UpdateOneResult where
  modified_count : Nat
  upserted_id : Option Value
  deriving Repr, DecidableEq

/-- `update.get("$set", {})`: the `$set` group of an update
specification, empty when absent.  (A present but non-mapping `$set`
would make the Python code raise inside `dict.update`; such updates are
outside the model.) -/
def getSetFields (update : Doc) : Doc :=
  match getVal update "$set" with
  | some (.obj kvs) => kvs
  | _ => []

/-- The search-and-update loop of `update_one`: find the first document
matching the query, apply `documents[i].update(set_fields)` to it and
stop; `none` when no document matches. -/
def updateFirstMatch (docs : List Doc) (query sf : Doc) : Option (List Doc) :=
  match docs with
  | [] => none
  | d :: rest =>
    if matchesDoc d query then some (dictUpdate d sf :: rest)
    else (updateFirstMatch rest query sf).map (fun ds => d :: ds)

/-- `FileBasedCollection.update_one`: update the first match with the
`$set` fields (all other operator groups of the update are ignored); if
there is no match and `upsert` is set, append `{**query, **set_fields}`.
The result always carries `upserted_id = None`. -/
def update_one (docs : List Doc) (query update : Doc) (upsert : Bool) :
    List Doc × UpdateOneResult :=
  let sf := getSetFields update
  match updateFirstMatch docs query sf with
  | some docs2 => (docs2, ⟨1, none⟩)
  | none =>
    if upsert then (docs ++ [dictUpdate query sf], ⟨0, none⟩)
    else (docs, ⟨0, none⟩)

/-- The search-and-remove loop of `delete_one`: drop the first document
matching the query; `none` when no document matches. -/
def deleteFirstMatch (docs : List Doc) (query : Doc) : Option (List Doc) :=
  match docs with
  | [] => none
  | d :: rest =>
    if matchesDoc d query then some rest
    else (deleteFirstMatch rest query).map (fun ds => d :: ds)

/-- `FileBasedCollection.delete_one`: remove the first match and report
how many documents disappeared. -/
def delete_one (docs : List Doc) (query : Doc) : List Doc × Nat :=
  match deleteFirstMatch docs query with
  | some docs2 => (docs2, 1)
  | none => (docs, 0)

/-- One mutating operation on a collection, for stating invariants over
operation sequences. -/
inductive Op where
  | insert (document : Doc)
  | update (query upd : Doc) (upsert : Bool)
  | delete (query : Doc)

/-- The state transition of one operation. -/
def applyOp (docs : List Doc) : Op → List Doc
  | .insert d => (insert_one docs d).1
  | .update q u ups => (update_one docs q u ups).1
  | .delete q => (delete_one docs q).1

/-- Run a sequence of operations from a given collection state. -/
def runOpsFrom (docs : List Doc) (ops : List Op) : List Doc :=
  ops.foldl applyOp docs

/-- Run a sequence of operations from the empty collection. -/
def runOps (ops : List Op) : List Doc :=
  runOpsFrom [] ops

/-- The identifiers present in a collection (documents lacking the
`_id` field contribute nothing). -/
def presentIds (docs : List Doc) : List Value :=
  docs.filterMap (fun d => getVal d "_id")

/-- The identifier-uniqueness invariant: no two documents carry the same
`_id` value. -/
def noDupIds (docs : List Doc) : Prop :=
  (presentIds docs).Nodup

instance (docs : List Doc) : Decidable (noDupIds docs) := by
  unfold noDupIds; infer_instance

end FileBasedCollection

namespace UserDB

/-- A Python `dict` with string keys, as an insertion-ordered
association list (used for `_users`, `_users_by_email`,
`_users_by_username`). -/
abbrev StrMap (α : Type) := List (String × α)

/-- `m.get(k)`: value of the first occurrence of key `k`. -/
def mapGet {α : Type} (m : StrMap α) (k : String) : Option α :=
  match m with
  | [] => none
  | (k0, v) :: rest => if k0 = k then some v else mapGet rest k

/-- `m[k] = v`: replace in place when present, append otherwise. -/
def mapSet {α : Type} (m : StrMap α) (k : String) (v : α) : StrMap α :=
  match m with
  | [] => [(k, v)]
  | (k0, v0) :: rest => if k0 = k then (k0, v) :: rest else (k0, v0) :: mapSet rest k v

/-- `m.pop(k)` / `m.pop(k, None)`: drop the binding of `k` when present. -/
def mapPop {α : Type} (m : StrMap α) (k : String) : StrMap α :=
  match m with
  | [] => []
  | (k0, v0) :: rest => if k0 = k then rest else (k0, v0) :: mapPop rest k

/-- `k in m`. -/
def mapContains {α : Type} (m : StrMap α) (k : String) : Bool :=
  (mapGet m k).isSome

/-- `UserInDB` (`app/models/users/user.py`): the account record as held
in `UserDBService._users`.  Timestamps are embedded as `Nat` seconds;
`data_sources` holds the embedded connection dictionaries. -/
structure UserInDB where
  email : String
  username : String
  full_name : Option String := none
  is_active : Bool := true
  is_admin : Bool := false
  github_id : Option String := none
  id : String
  hashed_password : String
  created_at : Nat
  last_login : Option Nat := none
  data_sources : List Doc := []
  deriving Repr, DecidableEq

/-- `UserCreate` (`app/models/users/user.py`): the candidate passed to
`create_user`. -/
structure UserCreate where
  email : String
  username : String
  full_name : Option String := none
  password : String
  deriving Repr, DecidableEq

/-- The mutable state of the `UserDBService` singleton: the primary map
and the two lower-cased secondary indices, plus `snapshot`, the list of
user records currently serialized in `data/users/users.json`. -/
structure UserDBState where
  users : StrMap UserInDB
  users_by_email : StrMap String
  users_by_username : StrMap String
  snapshot : List UserInDB
  deriving Repr, DecidableEq

/-- `UserDBService.email_exists`: membership of the lower-cased email in
the secondary index. -/
def email_exists (st : UserDBState) (email : String) : Bool :=
  mapContains st.users_by_email (strLower email)

/-- `UserDBService.username_exists`. -/
def username_exists (st : UserDBState) (username : String) : Bool :=
  mapContains st.users_by_username (strLower username)

/-- `UserDBService._save_users` with the outcome of the file write made
explicit.  The entire body runs inside `try/except Exception`, which
logs and swallows any failure: on failure nothing is written, nothing is
rolled back, and no error escapes to the caller. -/
def save_users (writeOk : Bool) (st : UserDBState) : UserDBState :=
  if writeOk then { st with snapshot := st.users.map (fun kv => kv.2) } else st

/-- `UserDBService.get_user_by_id`. -/
def get_user_by_id (st : UserDBState) (user_id : String) : Option UserInDB :=
  mapGet st.users user_id

/-- `UserDBService.get_user_by_email` (the hit from the index is used
only when truthy, i.e. a non-empty id string). -/
def get_user_by_email (st : UserDBState) (email : String) : Option UserInDB :=
  match mapGet st.users_by_email (strLower email) with
  | some uid => if uid = "" then none else mapGet st.users uid
  | none => none

/-- `UserDBService.get_user_by_username`. -/
def get_user_by_username (st : UserDBState) (username : String) : Option UserInDB :=
  match mapGet st.users_by_username (strLower username) with
  | some uid => if uid = "" then none else mapGet st.users uid
  | none => none

/-- `UserInDB.from_user_create`: the fresh account record; the
`uuid.uuid4()` identifier, the `bcrypt` hash and `datetime.utcnow()` are
external and appear as parameters. -/
def from_user_create (newId : String) (now : Nat) (hashedPw : String)
    (u : UserCreate) : UserInDB :=
  { email := u.email, username := u.username, full_name := u.full_name,
    id := newId, hashed_password := hashedPw, created_at := now }

/-- Outcome of `create_user`: the stored record, or the message of the
`ValueError` raised on a uniqueness violation. -/
inductive CreateResult where
  | ok (u : UserInDB)
  | uniqueError (msg : String)
  deriving Repr, DecidableEq

/-- `true` exactly on the `ValueError` outcome. -/
def CreateResult.isError : CreateResult → Bool
  | .ok _ => false
  | .uniqueError _ => true

/-- `UserDBService.create_user`: reject when the lower-cased email or
username is already indexed (checking email first), otherwise insert
into the primary map and both secondary indices and persist. -/
def create_user (st : UserDBState) (writeOk : Bool) (newId : String) (now : Nat)
    (hashedPw : String) (user : UserCreate) : UserDBState × CreateResult :=
  if email_exists st user.email then
    (st, .uniqueError ("Email " ++ user.email ++ " is already registered"))
  else if username_exists st user.username then
    (st, .uniqueError ("Username " ++ user.username ++ " is already taken"))
  else
    let db_user := from_user_create newId now hashedPw user
    let st2 := { st with
      users := mapSet st.users db_user.id db_user,
      users_by_email := mapSet st.users_by_email (strLower db_user.email) db_user.id,
      users_by_username := mapSet st.users_by_username (strLower db_user.username) db_user.id }
    (save_users writeOk st2, .ok db_user)

/-- One keyword argument of `update_user(user_id, **update_data)`, in
call order.  The constructors are the `UserInDB` attributes that the
claims touch; `other_missing` stands for a key for which
`hasattr(user, key)` is false, which the loop skips. -/
inductive PatchField where
  | email (v : String)
  | username (v : String)
  | full_name (v : Option String)
  | last_login (v : Option Nat)
  | data_sources (v : List Doc)
  | other_missing (k : String)
  deriving Repr, DecidableEq

/-- Result of processing one key of the `update_user` loop.  Because the
Python code mutates the live singleton and the live user object, a
raised `ValueError` still carries the state as mutated so far. -/
inductive StepResult where
  | ok (st : UserDBState) (u : UserInDB)
  | raised (st : UserDBState) (msg : String)
  deriving Repr, DecidableEq

/-- One iteration of the `update_user` loop for the user object living
at key `uid` of the primary map.  For `email`/`username` the uniqueness
check runs only when the lower-cased value actually changes, and the
secondary index is relocated before the attribute is set; every other
existing attribute is just set.  `setattr` on the aliased live object is
embedded by writing the updated record back at `uid`. -/
def applyPatchField (st : UserDBState) (uid : String) (u : UserInDB) :
    PatchField → StepResult
  | .email v =>
    if (strLower v) = (strLower u.email) then
      let u2 := { u with email := v }
      .ok { st with users := mapSet st.users uid u2 } u2
    else if email_exists st v then
      .raised st ("Email " ++ v ++ " is already registered")
    else
      let st2 := { st with
        users_by_email := mapSet (mapPop st.users_by_email (strLower u.email)) (strLower v) uid }
      let u2 := { u with email := v }
      .ok { st2 with users := mapSet st2.users uid u2 } u2
  | .username v =>
    if (strLower v) = (strLower u.username) then
      let u2 := { u with username := v }
      .ok { st with users := mapSet st.users uid u2 } u2
    else if username_exists st v then
      .raised st ("Username " ++ v ++ " is already taken")
    else
      let st2 := { st with
        users_by_username := mapSet (mapPop st.users_by_username (strLower u.username)) (strLower v) uid }
      let u2 := { u with username := v }
      .ok { st2 with users := mapSet st2.users uid u2 } u2
  | .full_name v =>
    let u2 := { u with full_name := v }
    .ok { st with users := mapSet st.users uid u2 } u2
  | .last_login v =>
    let u2 := { u with last_login := v }
    .ok { st with users := mapSet st.users uid u2 } u2
  | .data_sources v =>
    let u2 := { u with data_sources := v }
    .ok { st with users := mapSet st.users uid u2 } u2
  | .other_missing _ => .ok st u

/-- The `for key, value in update_data.items()` loop: process the keys
in order, stopping at the first raised `ValueError` (whose partial
mutations remain). -/
def applyPatchFields (st : UserDBState) (uid : String) (u : UserInDB) :
    List PatchField → StepResult
  | [] => .ok st u
  | f :: rest =>
    match applyPatchField st uid u f with
    | .ok st2 u2 => applyPatchFields st2 uid u2 rest
    | .raised st2 msg => .raised st2 msg

/-- Outcome of `update_user`: `None` for an unknown id, the updated
record on success, or the message of the raised `ValueError` — in which
case the mutations applied before the raise are still in the state. -/
inductive UpdateOutcome where
  | noUser
  | ok (u : UserInDB)
  | raised (msg : String)
  deriving Repr, DecidableEq

/-- `UserDBService.update_user`: look the user up, run the field loop,
and persist (the persistence step swallows write failures). -/
def update_user (st : UserDBState) (writeOk : Bool) (user_id : String)
    (patch : List PatchField) : UserDBState × UpdateOutcome :=
  match mapGet st.users user_id with
  | none => (st, .noUser)
  | some u =>
    match applyPatchFields st user_id u patch with
    | .ok st2 u2 => (save_users writeOk st2, .ok u2)
    | .raised st2 msg => (st2, .raised msg)

/-- `UserDBService.update_last_login`: stamp `last_login` and persist;
a no-op for an unknown id. -/
def update_last_login (st : UserDBState) (writeOk : Bool) (user_id : String)
    (now : Nat) : UserDBState :=
  match mapGet st.users user_id with
  | none => st
  | some u =>
    let u2 := { u with last_login := some now }
    save_users writeOk { st with users := mapSet st.users user_id u2 }

/-- `UserDBService.delete_user`: remove from both indices and the
primary map, persist, and report whether anything was removed. -/
def delete_user (st : UserDBState) (writeOk : Bool) (user_id : String) :
    UserDBState × Bool :=
  match mapGet st.users user_id with
  | none => (st, false)
  | some u =>
    let st2 := { st with
      users_by_email := mapPop st.users_by_email (strLower u.email),
      users_by_username := mapPop st.users_by_username (strLower u.username) }
    let st3 := { st2 with users := mapPop st2.users user_id }
    (save_users writeOk st3, true)

end UserDB

namespace DataConnections

open UserDB

/-- `ConnectionType` (string enum). -/
inductive ConnectionType where
  | spotify | google_calendar | google_fit | twitter | facebook
  | apple_health | fitbit | github | notion | custom_api
  deriving Repr, DecidableEq

/-- The string value of a `ConnectionType` member. -/
def ConnectionType.toValueStr : ConnectionType → String
  | .spotify => "spotify"
  | .google_calendar => "google_calendar"
  | .google_fit => "google_fit"
  | .twitter => "twitter"
  | .facebook => "facebook"
  | .apple_health => "apple_health"
  | .fitbit => "fitbit"
  | .github => "github"
  | .notion => "notion"
  | .custom_api => "custom_api"

/-- `ConnectionStatus` (string enum). -/
inductive ConnectionStatus where
  | connected | disconnected | pending | error
  deriving Repr, DecidableEq

/-- The string value of a `ConnectionStatus` member. -/
def ConnectionStatus.toValueStr : ConnectionStatus → String
  | .connected => "connected"
  | .disconnected => "disconnected"
  | .pending => "pending"
  | .error => "error"

/-- `DataConnection` (pydantic model).  Timestamps are `Nat` seconds. -/
structure DataConnection where
  id : String
  user_id : String
  type : ConnectionType
  name : String
  description : Option String := none
  status : ConnectionStatus := .disconnected
  connected_at : Option Nat := none
  last_sync : Option Nat := none
  settings : Doc := []
  metadata : Doc := []
  error_message : Option String := none
  deriving Repr, DecidableEq

/-- Constructing a `DataConnection`: when no `id` is supplied, the
pydantic `default_factory` produces `f"{datetime.utcnow().timestamp():.0f}"`
— the current time rounded to whole seconds, rendered as a decimal
string.  `now` is that clock reading. -/
def mkDataConnection (now : Nat) (given_id : Option String) (user_id : String)
    (ty : ConnectionType) (name : String) : DataConnection :=
  { id := given_id.getD (toString now), user_id := user_id, type := ty, name := name }

/-- An optional string as a JSON value. -/
def optStrVal : Option String → Value
  | some s => .str s
  | none => .null

/-- An optional timestamp as a JSON value. -/
def optNatVal : Option Nat → Value
  | some n => .int n
  | none => .null

/-- `connection.dict()`: the dictionary appended to the user's
`data_sources`, with the model's fields in declaration order. -/
def DataConnection.toDoc (c : DataConnection) : Doc :=
  [("id", .str c.id),
   ("user_id", .str c.user_id),
   ("type", .str c.type.toValueStr),
   ("name", .str c.name),
   ("description", optStrVal c.description),
   ("status", .str c.status.toValueStr),
   ("connected_at", optNatVal c.connected_at),
   ("last_sync", optNatVal c.last_sync),
   ("settings", .obj c.settings),
   ("metadata", .obj c.metadata),
   ("error_message", optStrVal c.error_message)]

/-- The stored connection dictionaries of one account, as read from the
primary map (what `get_connections` decodes and returns). -/
def connectionsOf (st : UserDBState) (user_id : String) : Option (List Doc) :=
  (mapGet st.users user_id).map (fun u => u.data_sources)

/-- The identifiers present among one account's stored connections. -/
def connIdsDistinct (ds : List Doc) : Prop :=
  (ds.filterMap (fun d => getVal d "id")).Nodup

instance (ds : List Doc) : Decidable (connIdsDistinct ds) := by
  unfold connIdsDistinct; infer_instance

/-- `DataConnectionService.add_connection`: require the user to exist
(`ValueError` otherwise, embedded as `none`), overwrite the connection's
`user_id`, append `connection.dict()` to the live `data_sources` list and
persist through `update_user`.  No identifier check of any kind is made
against the connections already present. -/
def add_connection (st : UserDBState) (writeOk : Bool) (user_id : String)
    (conn : DataConnection) : UserDBState × Option DataConnection :=
  match mapGet st.users user_id with
  | none => (st, none)
  | some u =>
    let conn2 := { conn with user_id := user_id }
    let ds := u.data_sources ++ [conn2.toDoc]
    let st2 := (update_user st writeOk user_id [.data_sources ds]).1
    (st2, some conn2)

/-- The search-and-merge loop of `update_connection`: find the first
stored connection whose `"id"` equals `connection_id` and assign each
binding of `update_data` into it, in order. -/
def updateConnFirst (ds : List Doc) (connection_id : String) (update_data : Doc) :
    Option (List Doc) :=
  match ds with
  | [] => none
  | d :: rest =>
    if getVal d "id" = some (.str connection_id) then
      some (dictUpdate d update_data :: rest)
    else
      (updateConnFirst rest connection_id update_data).map (fun l => d :: l)

/-- `DataConnectionService.update_connection`: require the user to
exist, shallow-merge the patch into the first matching sub-record, then
persist the whole `data_sources` array through `update_user`; report
whether a sub-record was found. -/
def update_connection (st : UserDBState) (writeOk : Bool)
    (user_id connection_id : String) (update_data : Doc) : UserDBState × Bool :=
  match mapGet st.users user_id with
  | none => (st, false)
  | some u =>
    match updateConnFirst u.data_sources connection_id update_data with
    | none => (st, false)
    | some ds2 =>
      ((update_user st writeOk user_id [.data_sources ds2]).1, true)

/-- `DataConnectionService.delete_connection`: filter every sub-record
with the given id out of the array; persist only when the length
shrank. -/
def delete_connection (st : UserDBState) (writeOk : Bool)
    (user_id connection_id : String) : UserDBState × Bool :=
  match mapGet st.users user_id with
  | none => (st, false)
  | some u =>
    let ds2 := u.data_sources.filter
      (fun d => ! decide (getVal d "id" = some (.str connection_id)))
    if ds2.length = u.data_sources.length then (st, false)
    else ((update_user st writeOk user_id [.data_sources ds2]).1, true)

/-- The `update_data` dictionary built by `set_connection_status`:
always the new status; the error message only when the target status is
`error` and the message is truthy (a non-empty string); a fresh
`connected_at` stamp only when the target status is `connected`. -/
def statusUpdateData (now : Nat) (status : ConnectionStatus)
    (error_message : Option String) : Doc :=
  let upd1 : Doc := [("status", .str status.toValueStr)]
  let upd2 :=
    match status, error_message with
    | .error, some m => if m = "" then upd1 else upd1 ++ [("error_message", .str m)]
    | _, _ => upd1
  if status = .connected then upd2 ++ [("connected_at", .int now)] else upd2

/-- `DataConnectionService.set_connection_status`: delegate to
`update_connection` with the dictionary above. -/
def set_connection_status (st : UserDBState) (writeOk : Bool) (now : Nat)
    (user_id connection_id : String) (status : ConnectionStatus)
    (error_message : Option String) : UserDBState × Bool :=
  update_connection st writeOk user_id connection_id
    (statusUpdateData now status error_message)

/-- `DataConnectionService.update_last_sync`: delegate to
`update_connection` with a `last_sync` stamp. -/
def update_last_sync (st : UserDBState) (writeOk : Bool)
    (user_id connection_id : String) (sync_time : Nat) : UserDBState × Bool :=
  update_connection st writeOk user_id connection_id [("last_sync", .int sync_time)]

end DataConnections

namespace FileBasedCollection

/-- Side conditions on one operation under which identifier uniqueness
is preserved (the store itself never checks any of them): an inserted
document's identifier, when present, is fresh; an update's `$set` group
never touches `_id`; and an upsert that will actually insert does not
carry `_id` among its filter keys. -/
def safeOp (docs : List Doc) : Op → Bool
  | .insert d =>
    match getVal d "_id" with
    | none => true
    | some v => docs.all (fun d2 => ! decide (getVal d2 "_id" = some v))
  | .update q u ups =>
    (! decide ("_id" ∈ (getSetFields u).map Prod.fst))
      && ((! ups) || docs.any (fun d => matchesDoc d q)
          || ! decide ("_id" ∈ q.map Prod.fst))
  | .delete _ => true

/-- `safeOp` holding at every step of an operation sequence. -/
def safeTrace (docs : List Doc) : List Op → Bool
  | [] => true
  | op :: rest => safeOp docs op && safeTrace (applyOp docs op) rest

end FileBasedCollection

namespace UserDB

/-- The state carried by a step result (on a raise, the state as mutated
so far). -/
def StepResult.state : StepResult → UserDBState
  | .ok st _ => st
  | .raised st _ => st

/-- Fixture: the first stored account of the update scenarios. -/
def aliceUser : UserInDB :=
  { email := "a@x.com", username := "alice", id := "u1",
    hashed_password := "hash1", created_at := 0 }

/-- Fixture: the second stored account of the update scenarios. -/
def bobUser : UserInDB :=
  { email := "b@x.com", username := "bob", id := "u2",
    hashed_password := "hash2", created_at := 0 }

/-- Fixture: a two-account repository state whose snapshot agrees with
the in-memory maps. -/
def twoUserState : UserDBState :=
  { users := [("u1", aliceUser), ("u2", bobUser)],
    users_by_email := [("a@x.com", "u1"), ("b@x.com", "u2")],
    users_by_username := [("alice", "u1"), ("bob", "u2")],
    snapshot := [aliceUser, bobUser] }

/-- Fixture: a one-account repository state whose snapshot agrees with
the in-memory maps. -/
def oneUserState : UserDBState :=
  { users := [("u1", aliceUser)],
    users_by_email := [("a@x.com", "u1")],
    users_by_username := [("alice", "u1")],
    snapshot := [aliceUser] }

end UserDB

namespace DataConnections

open UserDB

/-- Fixture: a calendar connection built without an explicit identifier
at clock reading 1700000000 (so the pydantic default factory assigns the
identifier "1700000000"). -/
def calendarConn : DataConnection :=
  mkDataConnection 1700000000 none "u1" ConnectionType.google_calendar "Calendar"

/-- Fixture: a fitness connection built without an explicit identifier
at the same clock reading, hence with the same assigned identifier. -/
def fitnessConn : DataConnection :=
  mkDataConnection 1700000000 none "u1" ConnectionType.google_fit "Fitness"

/-- Fixture: a stored connection that previously failed, carrying an
`error_message`, embedded in a one-account state. -/
def erroredConn : DataConnection :=
  { id := "c1", user_id := "u1", type := ConnectionType.spotify,
    name := "Spotify", status := ConnectionStatus.error,
    error_message := some "token expired" }

/-- Fixture: the account owning `erroredConn`. -/
def erroredConnUser : UserInDB :=
  { email := "a@x.com", username := "alice", id := "u1",
    hashed_password := "hash1", created_at := 0,
    data_sources := [erroredConn.toDoc] }

/-- Fixture: a repository state holding `erroredConnUser`. -/
def erroredConnState : UserDBState :=
  { users := [("u1", erroredConnUser)],
    users_by_email := [("a@x.com", "u1")],
    users_by_username := [("alice", "u1")],
    snapshot := [erroredConnUser] }

end DataConnections


namespace FileBasedCollection

/-- Fixture: the journal collection obtained by inserting three dated
records into the empty collection. -/
def journalEntries : List Doc :=
  runOps
    [.insert [("date", Value.str "2024-01-01"), ("content", Value.str "january")],
     .insert [("date", Value.str "2024-02-01"), ("content", Value.str "february")],
     .insert [("date", Value.str "2024-03-01"), ("content", Value.str "march")]]

/-- Fixture: the `$gte`/`$lte` range filter of the range-query
scenario. -/
def dateRangeQuery : Doc :=
  [("date", Value.obj [("$gte", Value.str "2024-01-15"),
                       ("$lte", Value.str "2024-02-15")])]

/-- Fixture: a one-record profile collection. -/
def profileCollection : List Doc :=
  [[("name", Value.str "User Profile")]]

/-- Fixture: the `$inc`-and-`$set` update specification sent by the
profile updater. -/
def incAndSetUpdate : Doc :=
  [("$inc", Value.obj [("activity.journal_entries", Value.int 1)]),
   ("$set", Value.obj [("last_updated", Value.str "2024-01-01T00:00:00")])]

/-- Fixture: a sequence of operations satisfying all the `safeOp` side
conditions. -/
def safeOpsExample : List Op :=
  [.insert [("_id", Value.str "a"), ("kind", Value.str "habit")],
   .insert [("_id", Value.str "b"), ("kind", Value.str "mood")],
   .insert [("note", Value.str "no identifier")],
   .update [("_id", Value.str "a")] [("$set", Value.obj [("kind", Value.str "journal")])] false,
   .delete [("_id", Value.str "b")]]

end FileBasedCollection


namespace UserDB

/-- Fixture: the empty repository state. -/
def emptyState : UserDBState :=
  { users := [], users_by_email := [], users_by_username := [], snapshot := [] }

/-- Fixture: creating the first account of the create scenario. -/
def createAliceFirst : UserDBState × CreateResult :=
  create_user emptyState true "u1" 0 "hash1"
    { email := "a@x.com", username := "alice", password := "Password1" }

/-- Fixture: the clashing second create of the scenario (same email up
to case). -/
def createBobSecond : UserDBState × CreateResult :=
  create_user createAliceFirst.1 true "u2" 0 "hash2"
    { email := "A@X.com", username := "bob", password := "Password2" }

end UserDB

/-! ## General lemmas about the dictionary operations -/

theorem getVal_setKey_self (d : Doc) (k : String) (v : Value) :
    getVal (setKey d k v) k = some v := by
  induction d with
  | nil => simp [setKey, getVal]
  | cons kv rest ih =>
    obtain ⟨k0, v0⟩ := kv
    by_cases h : k0 = k
    · simp [setKey, getVal, h]
    · simp [setKey, getVal, h, ih]

theorem getVal_setKey_ne (d : Doc) (k k2 : String) (v : Value) (h : k ≠ k2) :
    getVal (setKey d k v) k2 = getVal d k2 := by
  induction d with
  | nil => simp [setKey, getVal, h]
  | cons kv rest ih =>
    obtain ⟨k0, v0⟩ := kv
    by_cases h0 : k0 = k
    · subst h0
      simp [setKey, getVal, h]
    · simp [setKey, getVal, h0, ih]

theorem getVal_dictUpdate_not_mem (d kvs : Doc) (k : String)
    (h : k ∉ kvs.map Prod.fst) :
    getVal (dictUpdate d kvs) k = getVal d k := by
  induction kvs generalizing d with
  | nil => simp [dictUpdate]
  | cons kv rest ih =>
    obtain ⟨k0, v0⟩ := kv
    simp only [List.map_cons, List.mem_cons] at h
    push_neg at h
    obtain ⟨h1, h2⟩ := h
    have step : dictUpdate d ((k0, v0) :: rest) = dictUpdate (setKey d k0 v0) rest := rfl
    rw [step, ih _ h2, getVal_setKey_ne _ _ _ _ (fun hh => h1 hh.symm)]

theorem getVal_eq_none_of_not_mem (d : Doc) (k : String) (h : k ∉ d.map Prod.fst) :
    getVal d k = none := by
  induction d with
  | nil => rfl
  | cons kv rest ih =>
    obtain ⟨k0, v0⟩ := kv
    simp only [List.map_cons, List.mem_cons] at h
    push_neg at h
    simp [getVal, h.1.symm, ih h.2]

namespace FileBasedCollection

theorem presentIds_append (a b : List Doc) :
    presentIds (a ++ b) = presentIds a ++ presentIds b := by
  simp [presentIds, List.filterMap_append]

theorem updateFirstMatch_eq_none_iff (docs : List Doc) (q sf : Doc) :
    updateFirstMatch docs q sf = none ↔ ∀ d ∈ docs, matchesDoc d q = false := by
  induction docs with
  | nil => simp [updateFirstMatch]
  | cons d rest ih =>
    by_cases h : matchesDoc d q
    · simp [updateFirstMatch, h]
    · simp [updateFirstMatch, h, ih, Option.map_eq_none']

theorem presentIds_updateFirstMatch (docs docs2 : List Doc) (q sf : Doc)
    (hsf : "_id" ∉ sf.map Prod.fst)
    (h : updateFirstMatch docs q sf = some docs2) :
    presentIds docs2 = presentIds docs := by
  induction docs generalizing docs2 with
  | nil => simp [updateFirstMatch] at h
  | cons d rest ih =>
    by_cases hm : matchesDoc d q
    · simp only [updateFirstMatch, hm, if_true, Option.some.injEq] at h
      subst h
      simp only [presentIds, List.filterMap_cons,
        getVal_dictUpdate_not_mem _ _ _ hsf]
    · cases hrest : updateFirstMatch rest q sf with
      | none => simp [updateFirstMatch, hm, hrest] at h
      | some l =>
        simp [updateFirstMatch, hm, hrest] at h
        subst h
        simp only [presentIds, List.filterMap_cons] at *
        rw [ih _ hrest]

theorem deleteFirstMatch_sublist (docs docs2 : List Doc) (q : Doc)
    (h : deleteFirstMatch docs q = some docs2) : docs2.Sublist docs := by
  induction docs generalizing docs2 with
  | nil => simp [deleteFirstMatch] at h
  | cons d rest ih =>
    by_cases hm : matchesDoc d q
    · simp only [deleteFirstMatch, hm, if_true, Option.some.injEq] at h
      subst h
      exact List.sublist_cons_self _ _
    · cases hrest : deleteFirstMatch rest q with
      | none => simp [deleteFirstMatch, hm, hrest] at h
      | some l =>
        simp [deleteFirstMatch, hm, hrest] at h
        subst h
        exact (ih _ hrest).cons₂ d

theorem noDupIds_applyOp (docs : List Doc) (op : Op)
    (hnd : noDupIds docs) (hsafe : safeOp docs op = true) :
    noDupIds (applyOp docs op) := by
  cases op with
  | insert d =>
    simp only [applyOp, insert_one]
    unfold noDupIds at *
    rw [presentIds_append]
    cases hid : getVal d "_id" with
    | none => simpa [presentIds, List.filterMap_cons, hid] using hnd
    | some v =>
      simp only [safeOp, hid, List.all_eq_true, Bool.not_eq_eq_eq_not,
        Bool.not_true, decide_eq_false_iff_not] at hsafe
      have hv : v ∉ presentIds docs := by
        intro hmem
        simp only [presentIds, List.mem_filterMap] at hmem
        obtain ⟨d2, hd2, hget⟩ := hmem
        exact hsafe d2 hd2 hget
      have hsingle : presentIds [d] = [v] := by
        simp [presentIds, List.filterMap_cons, hid]
      rw [hsingle]
      exact hnd.append (List.nodup_singleton v)
        (fun a ha hb => by
          simp only [List.mem_singleton] at hb
          exact hv (hb ▸ ha))
  | update q u ups =>
    have hsf : "_id" ∉ (getSetFields u).map Prod.fst := by
      have h2 := hsafe
      simp only [safeOp, Bool.and_eq_true] at h2
      simpa using h2.1
    simp only [applyOp, update_one]
    cases hu : updateFirstMatch docs q (getSetFields u) with
    | some docs2 =>
      simp only [hu]
      unfold noDupIds at *
      rw [presentIds_updateFirstMatch docs docs2 q _ hsf hu]
      exact hnd
    | none =>
      simp only [hu]
      cases ups with
      | false => simpa [noDupIds] using hnd
      | true =>
        simp only [if_true]
        have hnomatch : ∀ d ∈ docs, matchesDoc d q = false :=
          (updateFirstMatch_eq_none_iff docs q (getSetFields u)).mp hu
        have hq : "_id" ∉ q.map Prod.fst := by
          have h2 := hsafe
          simp only [safeOp, Bool.and_eq_true, Bool.not_true, Bool.false_or,
            Bool.or_eq_true] at h2
          rcases h2.2 with h | h
          · exfalso
            simp only [List.any_eq_true] at h
            obtain ⟨d, hd, hmd⟩ := h
            rw [hnomatch d hd] at hmd
            exact Bool.false_ne_true hmd
          · simpa using h
        have hmerged : getVal (dictUpdate q (getSetFields u)) "_id" = none := by
          rw [getVal_dictUpdate_not_mem _ _ _ hsf]
          exact getVal_eq_none_of_not_mem _ _ hq
        unfold noDupIds at *
        rw [presentIds_append]
        simpa [presentIds, List.filterMap_cons, hmerged] using hnd
  | delete q =>
    simp only [applyOp, delete_one]
    cases hd : deleteFirstMatch docs q with
    | none => simpa [noDupIds] using hnd
    | some docs2 =>
      simp only [hd]
      unfold noDupIds at *
      exact hnd.sublist ((deleteFirstMatch_sublist docs docs2 q hd).filterMap _)

theorem noDupIds_runOpsFrom (ops : List Op) (docs : List Doc)
    (hnd : noDupIds docs) (hsafe : safeTrace docs ops = true) :
    noDupIds (runOpsFrom docs ops) := by
  induction ops generalizing docs with
  | nil => simpa [runOpsFrom] using hnd
  | cons op rest ih =>
    simp only [safeTrace, Bool.and_eq_true] at hsafe
    simp only [runOpsFrom, List.foldl_cons]
    exact ih _ (noDupIds_applyOp _ _ hnd hsafe.1) hsafe.2

end FileBasedCollection

namespace FileBasedCollection

theorem updateFirstMatch_append_match (docs : List Doc) (x : Doc) (q sf : Doc)
    (hnm : ∀ d ∈ docs, matchesDoc d q = false) (hx : matchesDoc x q = true) :
    updateFirstMatch (docs ++ [x]) q sf = some (docs ++ [dictUpdate x sf]) := by
  induction docs with
  | nil => simp [updateFirstMatch, hx]
  | cons d rest ih =>
    have hd := hnm d (by simp)
    have ihh := ih (fun d2 h2 => hnm d2 (by simp [h2]))
    simp [updateFirstMatch, hd, ihh]

/-- Claim C2, counterexample: starting from the empty collection, two
`insert_one` calls carrying the same `_id` leave the collection with two
records sharing that identifier — `insert_one` appends unconditionally
and never checks the identifier of an incoming record. -/
theorem insert_one_duplicate_identifier_breaks_uniqueness :
    runOps [.insert [("_id", Value.int 1)], .insert [("_id", Value.int 1)]]
      = [[("_id", Value.int 1)], [("_id", Value.int 1)]]
    ∧ ¬ noDupIds (runOps [.insert [("_id", Value.int 1)], .insert [("_id", Value.int 1)]]) := by
  constructor
  · rfl
  · decide

/-- Claim C2 (amended): the store itself never checks identifiers, so
identifier uniqueness holds only conditionally: for every operation
sequence from the empty collection in which each inserted record's
identifier (when it has one) is fresh at insertion time, no `$set` group
touches `_id`, and no upsert that actually inserts carries `_id` among
its filter keys, no two records of the resulting collection share an
`_id` value. -/
theorem identifier_uniqueness_under_safe_operations (ops : List Op)
    (hsafe : safeTrace [] ops = true) :
    noDupIds (runOps ops) :=
  noDupIds_runOpsFrom ops [] (by simp [noDupIds, presentIds]) hsafe

/-- Witness for `identifier_uniqueness_under_safe_operations` at a
concrete operation sequence. -/
theorem identifier_uniqueness_under_safe_operations_witness :
    safeTrace [] safeOpsExample = true ∧ noDupIds (runOps safeOpsExample) :=
  ⟨by decide, identifier_uniqueness_under_safe_operations safeOpsExample (by decide)⟩

/-- Claim C5, counterexample: an upsert with no match appends the merged
record but reports `upserted_id = None` rather than a synthesized
identifier — indeed no identifier is synthesized at all: the appended
record has no `_id` field. -/
theorem upsert_reports_no_synthesized_identifier :
    update_one [] [("user_id", Value.str "u1")]
        [("$set", Value.obj [("theme", Value.str "dark")])] true
      = ([[("user_id", Value.str "u1"), ("theme", Value.str "dark")]],
         ⟨0, none⟩)
    ∧ getVal ((update_one [] [("user_id", Value.str "u1")]
        [("$set", Value.obj [("theme", Value.str "dark")])] true).1.getD 0 []) "_id"
      = none := by
  constructor
  · rfl
  · rfl

/-- Claim C5 (amended): `update_one` with `upsert=true` and no matching
record appends exactly one new record, the filter's fields merged with
the `$set` fields, and reports `modified_count = 0` and a null
`upserted_id` (no identifier is synthesized or reported); when the
merged record still matches the filter, a second identical call updates
it in place and does not insert a second record. -/
theorem upsert_appends_merged_record_once (docs : List Doc) (query upd : Doc)
    (hnm : ∀ d ∈ docs, matchesDoc d query = false) :
    update_one docs query upd true
      = (docs ++ [dictUpdate query (getSetFields upd)], ⟨0, none⟩)
    ∧ (matchesDoc (dictUpdate query (getSetFields upd)) query = true →
        (update_one (docs ++ [dictUpdate query (getSetFields upd)]) query upd true).1
          = docs ++ [dictUpdate (dictUpdate query (getSetFields upd)) (getSetFields upd)]
        ∧ ((update_one (docs ++ [dictUpdate query (getSetFields upd)]) query upd true).1).length
          = (docs ++ [dictUpdate query (getSetFields upd)]).length) := by
  have hnone := (updateFirstMatch_eq_none_iff docs query (getSetFields upd)).mpr hnm
  constructor
  · simp [update_one, hnone]
  · intro hm
    have happ := updateFirstMatch_append_match docs _ query (getSetFields upd) hnm hm
    constructor
    · simp [update_one, happ]
    · simp [update_one, happ]

/-- Witness for `upsert_appends_merged_record_once` at a concrete
collection, filter and update. -/
theorem upsert_appends_merged_record_once_witness :
    (∀ d ∈ ([[("user_id", Value.str "other")]] : List Doc),
        matchesDoc d [("user_id", Value.str "u1")] = false)
    ∧ update_one [[("user_id", Value.str "other")]] [("user_id", Value.str "u1")]
        [("$set", Value.obj [("theme", Value.str "dark")])] true
      = ([[("user_id", Value.str "other")],
          [("user_id", Value.str "u1"), ("theme", Value.str "dark")]],
         ⟨0, none⟩) := by
  refine ⟨by decide, ?_⟩
  exact (upsert_appends_merged_record_once [[("user_id", Value.str "other")]]
    [("user_id", Value.str "u1")]
    [("$set", Value.obj [("theme", Value.str "dark")])] (by decide)).1

/-- Claim C6: `insert_one` does not generate an identifier for a record
that lacks one — the record is appended unchanged (still without an
`_id` field) and the reported `inserted_id` is `None`, while the spec
promises a generated identifier that is unique in the collection and
returned to the caller. -/
theorem insert_one_generates_no_identifier :
    (insert_one [[("_id", Value.str "existing")]] [("content", Value.str "hello")]).2.inserted_id
      = none
    ∧ (insert_one [[("_id", Value.str "existing")]] [("content", Value.str "hello")]).1
      = [[("_id", Value.str "existing")], [("content", Value.str "hello")]]
    ∧ getVal ((insert_one [[("_id", Value.str "existing")]]
        [("content", Value.str "hello")]).1.getD 1 []) "_id" = none := by
  exact ⟨rfl, rfl, rfl⟩

/-- Claim C7: the query matcher of `FileBasedCollection` has no
`$gte`/`$lte` support — the operator mapping is compared for literal
equality, so the range-query scenario returns no records at all even
though the February record is present in the collection. -/
theorem find_range_query_returns_no_records :
    find journalEntries dateRangeQuery = []
    ∧ getVal (journalEntries.getD 1 []) "date" = some (Value.str "2024-02-01")
    ∧ find_one journalEntries dateRangeQuery = none := by
  exact ⟨rfl, rfl, rfl⟩

/-- Claim C9: `update_one` ignores the `$inc` operator group entirely
(only `$set` is applied), so a `$inc` on a path absent from the record
does not set that path to the delta: after the profile update the
`activity.journal_entries` counter is nowhere in the record. -/
theorem update_one_ignores_inc_operator :
    update_one profileCollection [] incAndSetUpdate true
      = ([[("name", Value.str "User Profile"),
           ("last_updated", Value.str "2024-01-01T00:00:00")]], ⟨1, none⟩)
    ∧ getVal ((update_one profileCollection [] incAndSetUpdate true).1.getD 0 [])
        "activity.journal_entries" = none := by
  exact ⟨rfl, rfl⟩

end FileBasedCollection

namespace UserDB

theorem applyPatchField_snapshot (st : UserDBState) (uid : String) (u : UserInDB)
    (f : PatchField) : (applyPatchField st uid u f).state.snapshot = st.snapshot := by
  cases f with
  | email v =>
    by_cases h1 : (strLower v) = (strLower u.email)
    · simp [applyPatchField, h1, StepResult.state]
    · by_cases h2 : email_exists st v = true
      · simp [applyPatchField, h1, h2, StepResult.state]
      · simp [applyPatchField, h1, h2, StepResult.state]
  | username v =>
    by_cases h1 : (strLower v) = (strLower u.username)
    · simp [applyPatchField, h1, StepResult.state]
    · by_cases h2 : username_exists st v = true
      · simp [applyPatchField, h1, h2, StepResult.state]
      · simp [applyPatchField, h1, h2, StepResult.state]
  | full_name v => simp [applyPatchField, StepResult.state]
  | last_login v => simp [applyPatchField, StepResult.state]
  | data_sources v => simp [applyPatchField, StepResult.state]
  | other_missing k => simp [applyPatchField, StepResult.state]

theorem applyPatchFields_snapshot (patch : List PatchField) (st : UserDBState)
    (uid : String) (u : UserInDB) :
    (applyPatchFields st uid u patch).state.snapshot = st.snapshot := by
  induction patch generalizing st u with
  | nil => rfl
  | cons f rest ih =>
    have hsnap := applyPatchField_snapshot st uid u f
    simp only [applyPatchFields]
    cases hf : applyPatchField st uid u f with
    | ok st2 u2 =>
      rw [hf] at hsnap
      simp only [StepResult.state] at hsnap
      rw [ih st2 u2, hsnap]
    | raised st2 msg =>
      rw [hf] at hsnap
      simpa [StepResult.state] using hsnap

/-- Claim C1, counterexample: a patch that renames the username and then
changes the email to an already-indexed address raises the uniqueness
`ValueError`, but the username mutation applied before the raise
survives — a partial state change is visible, contradicting the
claim's atomicity. -/
theorem update_user_partial_mutation_on_violation :
    (update_user twoUserState true "u2" [.username "bob2", .email "A@X.com"]).2
      = .raised "Email A@X.com is already registered"
    ∧ (mapGet (update_user twoUserState true "u2"
        [.username "bob2", .email "A@X.com"]).1.users "u2").map (fun u => u.username)
      = some "bob2"
    ∧ (update_user twoUserState true "u2" [.username "bob2", .email "A@X.com"]).1.users_by_username
      = [("alice", "u1"), ("bob2", "u2")]
    ∧ (update_user twoUserState true "u2" [.username "bob2", .email "A@X.com"]).1
      ≠ twoUserState := by
  refine ⟨rfl, rfl, rfl, by decide⟩

/-- Claim C1 (amended): when the conflicting unique field is the only
entry of the patch, the update does fail with the uniqueness
`ValueError` before any mutation, leaving the repository state exactly
as it was; with a multi-field patch, only the mutations of the entries
processed before the conflicting one survive (see the counterexample),
so atomicity holds only for the single-field case. -/
theorem update_user_single_conflicting_field_preserves_state
    (st : UserDBState) (writeOk : Bool) (uid : String) (u : UserInDB)
    (hu : mapGet st.users uid = some u) :
    (∀ v, (strLower v) ≠ (strLower u.email) → email_exists st v = true →
      update_user st writeOk uid [.email v]
        = (st, .raised ("Email " ++ v ++ " is already registered")))
    ∧ (∀ v, (strLower v) ≠ (strLower u.username) → username_exists st v = true →
      update_user st writeOk uid [.username v]
        = (st, .raised ("Username " ++ v ++ " is already taken"))) := by
  constructor
  · intro v hne hex
    simp [update_user, hu, applyPatchFields, applyPatchField, hne, hex]
  · intro v hne hex
    simp [update_user, hu, applyPatchFields, applyPatchField, hne, hex]

/-- Witness for `update_user_single_conflicting_field_preserves_state`
at the two-account fixture. -/
theorem update_user_single_conflicting_field_preserves_state_witness :
    mapGet twoUserState.users "u2" = some bobUser
    ∧ ((strLower "A@X.com") ≠ (strLower bobUser.email) ∧ email_exists twoUserState "A@X.com" = true)
    ∧ update_user twoUserState true "u2" [.email "A@X.com"]
        = (twoUserState, .raised "Email A@X.com is already registered") := by
  refine ⟨rfl, ⟨by decide, by decide⟩, ?_⟩
  exact (update_user_single_conflicting_field_preserves_state twoUserState true "u2"
    bobUser rfl).1 "A@X.com" (by decide) (by decide)

/-- Claim C3, counterexample: when the durable write fails,
`_save_users` swallows the exception — `update_user` still reports the
updated record, the in-memory maps keep the mutation, and the snapshot
keeps its old content: nothing is propagated and nothing is rolled back,
so the in-memory state is left diverged from the last persisted
snapshot. -/
theorem save_failure_not_propagated_and_not_rolled_back :
    (update_user oneUserState false "u1" [.full_name (some "Alice Smith")]).2
      = .ok { aliceUser with full_name := some "Alice Smith" }
    ∧ (mapGet (update_user oneUserState false "u1"
        [.full_name (some "Alice Smith")]).1.users "u1").map (fun u => u.full_name)
      = some (some "Alice Smith")
    ∧ (update_user oneUserState false "u1" [.full_name (some "Alice Smith")]).1.snapshot
      = [aliceUser]
    ∧ (update_user oneUserState false "u1" [.full_name (some "Alice Smith")]).1.users.map
        (fun kv => kv.2)
      ≠ (update_user oneUserState false "u1" [.full_name (some "Alice Smith")]).1.snapshot := by
  refine ⟨rfl, rfl, rfl, by decide⟩

/-- Claim C3 (amended): for every mutating repository operation
(`create_user`, `update_user`, `delete_user`, `update_last_login`) a
failure of the durable write is invisible to the caller and to the
in-memory maps: the outcome and the three maps are identical to the
successful-write run, and the snapshot simply keeps its old value — the
failure is neither propagated nor rolled back, leaving the maps diverged
from the last persisted snapshot. -/
theorem mutations_survive_failed_persistence :
    (∀ st newId now hp cand,
        (create_user st false newId now hp cand).1.users
          = (create_user st true newId now hp cand).1.users
      ∧ (create_user st false newId now hp cand).1.users_by_email
          = (create_user st true newId now hp cand).1.users_by_email
      ∧ (create_user st false newId now hp cand).1.users_by_username
          = (create_user st true newId now hp cand).1.users_by_username
      ∧ (create_user st false newId now hp cand).2
          = (create_user st true newId now hp cand).2
      ∧ (create_user st false newId now hp cand).1.snapshot = st.snapshot)
    ∧ (∀ st uid patch,
        (update_user st false uid patch).1.users
          = (update_user st true uid patch).1.users
      ∧ (update_user st false uid patch).1.users_by_email
          = (update_user st true uid patch).1.users_by_email
      ∧ (update_user st false uid patch).1.users_by_username
          = (update_user st true uid patch).1.users_by_username
      ∧ (update_user st false uid patch).2 = (update_user st true uid patch).2
      ∧ (update_user st false uid patch).1.snapshot = st.snapshot)
    ∧ (∀ st uid now,
        (update_last_login st false uid now).users = (update_last_login st true uid now).users
      ∧ (update_last_login st false uid now).snapshot = st.snapshot)
    ∧ (∀ st uid,
        (delete_user st false uid).1.users = (delete_user st true uid).1.users
      ∧ (delete_user st false uid).1.users_by_email
          = (delete_user st true uid).1.users_by_email
      ∧ (delete_user st false uid).1.users_by_username
          = (delete_user st true uid).1.users_by_username
      ∧ (delete_user st false uid).2 = (delete_user st true uid).2
      ∧ (delete_user st false uid).1.snapshot = st.snapshot) := by
  refine ⟨?_, ?_, ?_, ?_⟩
  · intro st newId now hp cand
    by_cases h1 : email_exists st cand.email = true
    · simp [create_user, h1]
    · by_cases h2 : username_exists st cand.username = true
      · simp [create_user, h1, h2]
      · simp [create_user, h1, h2, save_users]
  · intro st uid patch
    cases hu : mapGet st.users uid with
    | none => simp [update_user, hu]
    | some u =>
      have hsnap := applyPatchFields_snapshot patch st uid u
      cases hf : applyPatchFields st uid u patch with
      | ok st2 u2 =>
        rw [hf] at hsnap
        simp only [StepResult.state] at hsnap
        simp [update_user, hu, hf, save_users, hsnap]
      | raised st2 msg =>
        rw [hf] at hsnap
        simp only [StepResult.state] at hsnap
        simp [update_user, hu, hf, hsnap]
  · intro st uid now
    cases hu : mapGet st.users uid with
    | none => simp [update_last_login, hu]
    | some u => simp [update_last_login, hu, save_users]
  · intro st uid
    cases hu : mapGet st.users uid with
    | none => simp [delete_user, hu]
    | some u => simp [delete_user, hu, save_users]

/-- Claim C8: `create_user` raises the uniqueness `ValueError` exactly
when the candidate's lower-cased email or username is already indexed,
and a failed create leaves the repository untouched; in the concrete
scenario, creating `a@x.com`/`alice` succeeds and a second create with
`A@X.com`/`bob` fails on the case-insensitive email clash, the
repository still holding only the first account. -/
theorem create_user_fails_iff_normalized_field_indexed :
    (∀ st writeOk newId now hp cand,
        ((create_user st writeOk newId now hp cand).2.isError = true
          ↔ (email_exists st cand.email = true ∨ username_exists st cand.username = true))
      ∧ ((create_user st writeOk newId now hp cand).2.isError = true →
          (create_user st writeOk newId now hp cand).1 = st))
    ∧ createAliceFirst.2.isError = false
    ∧ createBobSecond.2 = .uniqueError "Email A@X.com is already registered"
    ∧ createBobSecond.1 = createAliceFirst.1
    ∧ createAliceFirst.1.users.map (fun kv => kv.1) = ["u1"] := by
  refine ⟨?_, rfl, rfl, by decide, rfl⟩
  intro st writeOk newId now hp cand
  by_cases h1 : email_exists st cand.email = true
  · simp [create_user, h1, CreateResult.isError]
  · by_cases h2 : username_exists st cand.username = true
    · simp [create_user, h1, h2, CreateResult.isError]
    · simp [create_user, h1, h2, CreateResult.isError]

/-- Witness for `create_user_fails_iff_normalized_field_indexed`: the
implication part applied at the clashing second create. -/
theorem create_user_fails_iff_normalized_field_indexed_witness :
    (create_user createAliceFirst.1 true "u2" 0 "hash2"
      { email := "A@X.com", username := "bob", password := "Password2" }).2.isError = true
    ∧ (create_user createAliceFirst.1 true "u2" 0 "hash2"
      { email := "A@X.com", username := "bob", password := "Password2" }).1
        = createAliceFirst.1 := by
  refine ⟨by decide, ?_⟩
  exact (create_user_fails_iff_normalized_field_indexed.1 createAliceFirst.1 true "u2" 0
    "hash2" { email := "A@X.com", username := "bob", password := "Password2" }).2 (by decide)

end UserDB

namespace UserDB

theorem mapGet_mapSet_self {α : Type} (m : StrMap α) (k : String) (v : α) :
    mapGet (mapSet m k v) k = some v := by
  induction m with
  | nil => simp [mapSet, mapGet]
  | cons kv rest ih =>
    obtain ⟨k0, v0⟩ := kv
    by_cases h : k0 = k
    · simp [mapSet, mapGet, h]
    · simp [mapSet, mapGet, h, ih]

end UserDB

namespace DataConnections

theorem connectionsOf_save_users (writeOk : Bool) (st : UserDB.UserDBState)
    (uid : String) :
    connectionsOf (UserDB.save_users writeOk st) uid = connectionsOf st uid := by
  cases writeOk <;> simp [UserDB.save_users, connectionsOf]

theorem connectionsOf_after_data_sources_update (st : UserDB.UserDBState)
    (writeOk : Bool) (uid : String) (u : UserDB.UserInDB) (ds : List Doc)
    (hu : UserDB.mapGet st.users uid = some u) :
    connectionsOf (UserDB.update_user st writeOk uid [.data_sources ds]).1 uid
      = some ds := by
  simp only [UserDB.update_user, hu, UserDB.applyPatchFields, UserDB.applyPatchField]
  rw [connectionsOf_save_users]
  simp [connectionsOf, UserDB.mapGet_mapSet_self]

theorem updateConnFirst_length (ds ds2 : List Doc) (cid : String) (upd : Doc)
    (h : updateConnFirst ds cid upd = some ds2) : ds2.length = ds.length := by
  induction ds generalizing ds2 with
  | nil => simp [updateConnFirst] at h
  | cons d rest ih =>
    by_cases hm : getVal d "id" = some (.str cid)
    · simp [updateConnFirst, hm] at h
      subst h
      simp
    · cases hrest : updateConnFirst rest cid upd with
      | none => simp [updateConnFirst, hm, hrest] at h
      | some l =>
        simp [updateConnFirst, hm, hrest] at h
        subst h
        simp [ih _ hrest]

theorem updateConnFirst_getVal_preserved (ds ds2 : List Doc) (cid : String)
    (upd : Doc) (k : String) (hk : k ∉ upd.map Prod.fst)
    (h : updateConnFirst ds cid upd = some ds2) :
    ∀ i, getVal (ds2.getD i []) k = getVal (ds.getD i []) k := by
  induction ds generalizing ds2 with
  | nil => simp [updateConnFirst] at h
  | cons d rest ih =>
    by_cases hm : getVal d "id" = some (.str cid)
    · simp [updateConnFirst, hm] at h
      subst h
      intro i
      cases i with
      | zero => simpa [List.getD] using getVal_dictUpdate_not_mem d upd k hk
      | succ j => simp [List.getD]
    · cases hrest : updateConnFirst rest cid upd with
      | none => simp [updateConnFirst, hm, hrest] at h
      | some l =>
        simp [updateConnFirst, hm, hrest] at h
        subst h
        intro i
        cases i with
        | zero => simp [List.getD]
        | succ j => simpa [List.getD] using ih _ hrest j

theorem statusUpdateData_no_error_message (now : Nat) (status : ConnectionStatus)
    (msg : Option String) (hst : status ≠ ConnectionStatus.error) :
    "error_message" ∉ (statusUpdateData now status msg).map Prod.fst := by
  cases status with
  | connected => simp [statusUpdateData]
  | disconnected => simp [statusUpdateData]
  | pending => simp [statusUpdateData]
  | error => exact absurd rfl hst

/-- Claim C4, counterexample: two connections built without an explicit
identifier in the same second receive the same timestamp identifier, and
`add_connection` appends without any check against the identifiers
already stored, so the account ends up with two sub-records sharing an
id. -/
theorem add_connection_duplicate_timestamp_identifier :
    calendarConn.id = "1700000000"
    ∧ fitnessConn.id = "1700000000"
    ∧ connectionsOf
        (add_connection (add_connection UserDB.oneUserState true "u1" calendarConn).1
          true "u1" fitnessConn).1 "u1"
      = some [({ calendarConn with user_id := "u1" }).toDoc,
              ({ fitnessConn with user_id := "u1" }).toDoc]
    ∧ ¬ connIdsDistinct [({ calendarConn with user_id := "u1" }).toDoc,
                         ({ fitnessConn with user_id := "u1" }).toDoc] := by
  refine ⟨rfl, rfl, rfl, by decide⟩

/-- Claim C4 (amended): neither `add_connection` nor the identifier
factory checks the identifiers already present — the generated id is the
bare second-resolution timestamp — so id uniqueness within an account's
connections holds only when the added connection's identifier (given or
generated) differs from every stored one; under that freshness
hypothesis the append preserves pairwise distinctness. -/
theorem add_connection_unique_ids_when_fresh
    (st : UserDB.UserDBState) (writeOk : Bool) (uid : String)
    (u : UserDB.UserInDB) (conn : DataConnection)
    (hu : UserDB.mapGet st.users uid = some u)
    (hdist : connIdsDistinct u.data_sources)
    (hfresh : ∀ d ∈ u.data_sources, getVal d "id" ≠ some (Value.str conn.id)) :
    connectionsOf (add_connection st writeOk uid conn).1 uid
      = some (u.data_sources ++ [({ conn with user_id := uid }).toDoc])
    ∧ connIdsDistinct (u.data_sources ++ [({ conn with user_id := uid }).toDoc]) := by
  constructor
  · simp only [add_connection, hu]
    exact connectionsOf_after_data_sources_update st writeOk uid u _ hu
  · unfold connIdsDistinct at *
    rw [List.filterMap_append]
    have hid : getVal (({ conn with user_id := uid }).toDoc) "id"
        = some (Value.str conn.id) := rfl
    have hone : List.filterMap (fun d => getVal d "id")
        [({ conn with user_id := uid }).toDoc] = [Value.str conn.id] := by
      simp [List.filterMap_cons, hid]
    rw [hone]
    refine hdist.append (List.nodup_singleton _) ?_
    intro a ha hb
    simp only [List.mem_singleton] at hb
    subst hb
    simp only [List.mem_filterMap] at ha
    obtain ⟨d, hd, hget⟩ := ha
    exact hfresh d hd hget

/-- Witness for `add_connection_unique_ids_when_fresh` at the
one-account fixture. -/
theorem add_connection_unique_ids_when_fresh_witness :
    UserDB.mapGet UserDB.oneUserState.users "u1" = some UserDB.aliceUser
    ∧ connIdsDistinct UserDB.aliceUser.data_sources
    ∧ (∀ d ∈ UserDB.aliceUser.data_sources,
        getVal d "id" ≠ some (Value.str calendarConn.id))
    ∧ connectionsOf (add_connection UserDB.oneUserState true "u1" calendarConn).1 "u1"
      = some [({ calendarConn with user_id := "u1" }).toDoc] := by
  refine ⟨rfl, by decide, by decide, ?_⟩
  exact (add_connection_unique_ids_when_fresh UserDB.oneUserState true "u1"
    UserDB.aliceUser calendarConn rfl (by decide) (by decide)).1

/-- Claim C10: a status transition to any non-error status never touches
the `error_message` field: the update dictionary carries no
`error_message` key, so every stored connection (the matched one
included) keeps its previously recorded `error_message`, while the
update sets `status` and, when moving into `connected`, stamps
`connected_at`. -/
theorem set_connection_status_preserves_error_message
    (st : UserDB.UserDBState) (writeOk : Bool) (now : Nat) (uid cid : String)
    (status : ConnectionStatus) (msg : Option String) (u : UserDB.UserInDB)
    (hu : UserDB.mapGet st.users uid = some u)
    (hst : status ≠ ConnectionStatus.error) :
    (∀ d : Doc,
        getVal (dictUpdate d (statusUpdateData now status msg)) "error_message"
          = getVal d "error_message"
      ∧ getVal (dictUpdate d (statusUpdateData now status msg)) "status"
          = some (Value.str status.toValueStr)
      ∧ (status = ConnectionStatus.connected →
          getVal (dictUpdate d (statusUpdateData now status msg)) "connected_at"
            = some (Value.int now)))
    ∧ (∃ ds2,
        connectionsOf (set_connection_status st writeOk now uid cid status msg).1 uid
          = some ds2
      ∧ ds2.length = u.data_sources.length
      ∧ ∀ i, getVal (ds2.getD i []) "error_message"
          = getVal (u.data_sources.getD i []) "error_message") := by
  have hnomem := statusUpdateData_no_error_message now status msg hst
  constructor
  · intro d
    refine ⟨getVal_dictUpdate_not_mem d _ _ hnomem, ?_, ?_⟩
    · cases status with
      | connected =>
        simp [statusUpdateData, dictUpdate, getVal_setKey_self,
          getVal_setKey_ne _ "connected_at" "status" _ (by decide)]
      | disconnected => simp [statusUpdateData, dictUpdate, getVal_setKey_self]
      | pending => simp [statusUpdateData, dictUpdate, getVal_setKey_self]
      | error => exact absurd rfl hst
    · intro hc
      subst hc
      simp [statusUpdateData, dictUpdate, getVal_setKey_self]
  · simp only [set_connection_status, update_connection, hu]
    cases hfind : updateConnFirst u.data_sources cid (statusUpdateData now status msg) with
    | none =>
      refine ⟨u.data_sources, ?_, rfl, fun i => rfl⟩
      simp [connectionsOf, hu]
    | some ds2 =>
      refine ⟨ds2, ?_, updateConnFirst_length _ _ _ _ hfind, ?_⟩
      · exact connectionsOf_after_data_sources_update st writeOk uid u ds2 hu
      · exact updateConnFirst_getVal_preserved _ _ _ _ _ hnomem hfind

/-- Witness for `set_connection_status_preserves_error_message`: the
`error → connected` retry transition on the errored fixture connection. -/
theorem set_connection_status_preserves_error_message_witness :
    UserDB.mapGet erroredConnState.users "u1" = some erroredConnUser
    ∧ ConnectionStatus.connected ≠ ConnectionStatus.error
    ∧ (∃ ds2,
        connectionsOf (set_connection_status erroredConnState true 1700000100 "u1" "c1"
          ConnectionStatus.connected none).1 "u1" = some ds2
      ∧ ds2.length = erroredConnUser.data_sources.length
      ∧ ∀ i, getVal (ds2.getD i []) "error_message"
          = getVal (erroredConnUser.data_sources.getD i []) "error_message") := by
  refine ⟨rfl, by decide, ?_⟩
  exact (set_connection_status_preserves_error_message erroredConnState true 1700000100
    "u1" "c1" ConnectionStatus.connected none erroredConnUser rfl (by decide)).2

end DataConnections
